import Mathlib

/-!
Verification of the resilient-transfer core of the BaiduPCS-Go command-line
client: the upload task unit (rapid-upload dedup, resumable chunked upload,
error classification) from `internal/pcsfunctions/pcsupload/upload_task_unit.go`,
and the concurrent terminal renderer (`TaskPrinter`, second version) from the
task framework.

External collaborators (the remote protocol client, the checkpoint store, the
hashing primitives and the width-measurement function) are modelled as explicit
inputs: each run-level function receives the outcome the collaborator would
produce, and the function's result records which collaborator calls were made
and with what effect.
-/

namespace BaiduPCS

/-! ## Error model (`pcserror` package, external)

`pcserror.Error` exposes `GetErrType`, `GetRemoteErrCode` and `GetError`.
The upload task only distinguishes the remote-error type, the net-error type,
and everything else (the `default` arm of its `switch`), so the embedding
collapses all remaining type values into one constructor. -/

/-- The error-type tag of a `pcserror.Error` as consumed by the upload task:
`ErrTypeRemoteError`, `ErrTypeNetError`, or any other value (hit by the
`default` arm of the `switch` on `GetErrType`). -/
inductive PcsErrType where
  | remoteError
  | netError
  | otherType
  deriving DecidableEq, Repr

/-- A classified protocol error: its type tag, its remote error code
(`GetRemoteErrCode`, meaningful for remote errors), and the message of the
underlying error (`GetError().Error()`). -/
structure PcsError where
  errType : PcsErrType
  remoteErrCode : Nat
  errMsg : String
  deriving DecidableEq, Repr

/-- An error delivered to the upload `OnError` callback: either a classified
`pcserror.Error`, or a value that fails the `err.(pcserror.Error)` type
assertion. -/
inductive UploadErr where
  | pcs (e : PcsError)
  | unknown (msg : String)
  deriving DecidableEq, Repr

/-- The `Err` field of a run result: either a classified protocol error stored
as-is, or an error created from a plain message (`errors.New` / the unknown
error value). -/
inductive ErrValue where
  | pcs (e : PcsError)
  | msg (s : String)
  deriving DecidableEq, Repr

/-- `taskframework.TaskUnitRunResult`: outcome of one execution attempt.
The Go zero value has both flags false, empty message and nil `Err`. -/
structure TaskUnitRunResult where
  succeed : Bool
  needRetry : Bool
  resultMessage : String
  err : Option ErrValue
  deriving DecidableEq, Repr

/-- The Go zero value `&taskframework.TaskUnitRunResult{}`. -/
def zeroResult : TaskUnitRunResult := ⟨false, false, "", none⟩

/-- `StrUploadFailed` from `upload_task_unit.go`. -/
def StrUploadFailed : String := "上传文件失败"

/-- `DefaultPrintFormat` from `upload_task_unit.go`. -/
def DefaultPrintFormat : String := "↑ %s/%s %s/s in %s ............"

/-! ## Checkpoint store (`UploadingDatabase`, external collaborator)

Modelled from the spec: the checkpoint store offers `find(identity)`,
`upsert(identity, checkpoint)` (`UpdateUploading`), `delete(identity)` and
`persist()` (`Save`). The store is an association list from the local file
identity to an optional resume state (`UpdateUploading(meta, nil)` stores a
placeholder with no resume state, modelled as `none`); `Save` copies the
in-memory list to the persisted copy. -/

/-- The key of a checkpoint entry: the local file identity (`LocalFileMeta`). -/
abbrev Identity := String

/-- A stored checkpoint value: `some s` is a real resume state (the opaque
`uploader.InstanceState`), `none` is the placeholder written by
`UpdateUploading(meta, nil)`. -/
abbrev CheckpointVal := Option Nat

/-- The checkpoint store: in-memory entries and the persisted (saved) copy. -/
structure UploadingDatabase where
  mem : List (Identity × CheckpointVal)
  disk : List (Identity × CheckpointVal)
  deriving DecidableEq, Repr

/-- `UpdateUploading`: upsert the entry for `k` in the in-memory state. -/
def dbUpdate (db : UploadingDatabase) (k : Identity) (v : CheckpointVal) :
    UploadingDatabase :=
  if db.mem.any (fun e => e.1 = k) then
    ⟨db.mem.map (fun e => if e.1 = k then (k, v) else e), db.disk⟩
  else
    ⟨db.mem ++ [(k, v)], db.disk⟩

/-- `Delete`: remove the entry for `k` from the in-memory state. -/
def dbDelete (db : UploadingDatabase) (k : Identity) : UploadingDatabase :=
  ⟨db.mem.filter (fun e => ¬ e.1 = k), db.disk⟩

/-- `Save`: persist the in-memory state. -/
def dbSave (db : UploadingDatabase) : UploadingDatabase :=
  ⟨db.mem, db.mem⟩

/-- Whether the in-memory state holds an entry for `k`. -/
def dbHasMem (db : UploadingDatabase) (k : Identity) : Bool :=
  db.mem.any (fun e => e.1 = k)

/-- Whether the persisted state holds an entry for `k`. -/
def dbHasDisk (db : UploadingDatabase) (k : Identity) : Bool :=
  db.disk.any (fun e => e.1 = k)

/-! ## `strings.Contains` -/

/-- Whether the first character list is an initial segment of the second. -/
def chListStarts : List Char → List Char → Bool
  | [], _ => true
  | _ :: _, [] => false
  | a :: as, b :: bs => a = b && chListStarts as bs

/-- Whether the first character list occurs contiguously inside the second. -/
def chListInfix : List Char → List Char → Bool
  | sub, [] => sub.isEmpty
  | sub, c :: rest => chListStarts sub (c :: rest) || chListInfix sub rest

/-- `strings.Contains s sub`: `sub` occurs as a contiguous substring of `s`. -/
def strContains (s sub : String) : Bool :=
  chListInfix sub.toList s.toList

/-- The oversized-request indication searched for in a net error's message. -/
def oversizedIndication : String := "413 Request Entity Too Large"

/-! ## Upload stage: the `OnError` callback (`upload_task_unit.go:250-301`)

The callback receives the transfer error and mutates the fresh zero
`TaskUnitRunResult`; for the stale-session code it also deletes the checkpoint
and saves the store. The embedding returns the final result together with the
store state after the callback. -/

/-- The `OnError` callback of `UploadTaskUnit.upload`, as a function from the
store state and the delivered error to the run result and the store state
after the callback. Mirrors the Go control flow: a failed type assertion
returns at once with the zero flags; otherwise `NeedRetry` is first set and
then selectively cleared. -/
def uploadOnError (db : UploadingDatabase) (ident : Identity) (e : UploadErr) :
    TaskUnitRunResult × UploadingDatabase :=
  match e with
  | .unknown m =>
      -- 未知错误类型 (非预期的), 不重试
      (⟨false, false, "上传文件错误", some (.msg m)⟩, db)
  | .pcs pe =>
      -- 默认需要重试
      match pe.errType with
      | .remoteError =>
          if pe.remoteErrCode = 31363 then
            -- block miss in superfile2, 上传状态过期: 删除断点并保存, 需要重试
            (⟨false, true, StrUploadFailed, some (.msg "上传状态过期, 重新上传")⟩,
              dbSave (dbDelete db ident))
          else if pe.remoteErrCode = 31061 then
            -- 已存在重名文件, 不重试
            (⟨false, false, StrUploadFailed, some (.pcs pe)⟩, db)
          else
            (⟨false, true, StrUploadFailed, some (.pcs pe)⟩, db)
      | .netError =>
          if strContains pe.errMsg oversizedIndication then
            -- 请求实体过大, 不重试
            (⟨false, false, StrUploadFailed, some (.pcs pe)⟩, db)
          else
            (⟨false, true, StrUploadFailed, some (.pcs pe)⟩, db)
      | .otherType =>
          (⟨false, false, StrUploadFailed, some (.pcs pe)⟩, db)

/-! ## Prepare stage (`prepareFile`, `upload_task_unit.go:84-111`) -/

/-- The `StepUpload` enumeration: init, rapid-upload, normal upload. -/
inductive StepUpload where
  | init
  | rapidUploadStep
  | uploadStep
  deriving DecidableEq, Repr

/-- Modelled from the spec: `baidupcs.MaxRapidUploadSize`, the fixed 20 GiB
ceiling above which rapid upload is skipped. The constant lives in the
`baidupcs` package, outside the given sources; the spec fixes it at 20 GiB. -/
def MaxRapidUploadSize : Nat := 20 * 1024 * 1024 * 1024

/-- `prepareFile`, as a function of the collaborator results it consults: the
checkpoint-store search result (`utu.state`), the cached full MD5
(`LocalFileMeta.MD5`), the `NoRapidUpload` flag and the file length. Returns
the step the run continues with. -/
def prepareFile (state : Option Nat) (cachedMD5 : Option (List Nat))
    (noRapidUpload : Bool) (length : Nat) : StepUpload :=
  if state.isSome || cachedMD5.isSome then .uploadStep
  else if noRapidUpload then .uploadStep
  else if length > MaxRapidUploadSize then .uploadStep
  else .rapidUploadStep

/-! ## Rapid-upload stage (`rapidUpload`, `upload_task_unit.go:114-199`)

External collaborator outcomes are passed in: the cached directory listing
(`CacheFilesDirectoriesList`), the checksum computation (`Sum`), and the
rapid-upload RPC (`PCS.RapidUpload`). The output records the run result, the
`isContinue` flag, the store state, whether the RPC was invoked, and the
lines printed. -/

/-- One entry of the remote directory listing: its leaf file name and its
reported MD5 as a hex string. -/
structure RemoteFile where
  filename : String
  md5 : String
  deriving DecidableEq, Repr

/-- `encoding/hex`: decode one hex digit. -/
def hexDigit (c : Char) : Option Nat :=
  if '0' ≤ c ∧ c ≤ '9' then some (c.toNat - '0'.toNat)
  else if 'a' ≤ c ∧ c ≤ 'f' then some (c.toNat - 'a'.toNat + 10)
  else if 'A' ≤ c ∧ c ≤ 'F' then some (c.toNat - 'A'.toNat + 10)
  else none

/-- `encoding/hex.DecodeString` with its error ignored, as in the source
(`decodedMD5, _ := hex.DecodeString(fd.MD5)`): Go returns the bytes decoded
before the first malformed pair (a lone trailing digit decodes to nothing). -/
def hexDecodeAux : List Char → List Nat
  | c1 :: c2 :: rest =>
      match hexDigit c1, hexDigit c2 with
      | some h, some l => (h * 16 + l) :: hexDecodeAux rest
      | _, _ => []
  | _ => []

/-- `hex.DecodeString` on a string, error ignored. -/
def hexDecode (s : String) : List Nat :=
  hexDecodeAux s.toList

/-- The dedup scan of `rapidUpload`: some listing entry has the target leaf
name and its reported MD5 decodes to the locally computed MD5 bytes. -/
def dedupHit (fdl : List RemoteFile) (panFile : String) (md5 : List Nat) : Bool :=
  fdl.any (fun fd => fd.filename == panFile && hexDecode fd.md5 == md5)

/-- `converter.MB`. -/
def MB : Nat := 1048576

/-- Output of the rapid-upload stage: the `isContinue` flag, the run result,
the store state after the stage, whether `PCS.RapidUpload` was invoked, and
the printed lines. -/
structure RapidOut where
  isContinue : Bool
  result : TaskUnitRunResult
  db : UploadingDatabase
  rpcCalled : Bool
  printed : List String
  deriving DecidableEq, Repr

/-- The tail of `rapidUpload` after the listing has been obtained (`fdl` is
`none` when the listing failed with the definitive remote code 31066, treated
as an absent directory): checksum computation, dedup scan, the rapid-upload
RPC, and its error handling. -/
def rapidUploadAfterList (savePath panFile : String) (length : Nat)
    (ident : Identity) (db : UploadingDatabase)
    (fdl : Option (List RemoteFile)) (sumResult : Except String (List Nat))
    (rpc : Option PcsError) : RapidOut :=
  -- 文件大于128MB, 输出提示信息
  let printed0 : List String :=
    if length ≥ 128 * MB then ["检测秒传中, 请稍候..."] else []
  match sumResult with
  | .error e =>
      -- 计算文件秒传信息错误, 不重试
      (⟨false, ⟨false, false, "计算文件秒传信息错误", some (.msg e)⟩, db, false,
        printed0⟩)
  | .ok md5 =>
      -- 检测缓存, 通过文件的md5值判断本地文件和网盘文件是否一样
      if (match fdl with
          | some l => dedupHit l panFile md5
          | none => false) then
        ⟨false, ⟨true, false, "", none⟩, db, false,
          printed0 ++ ["目标文件, " ++ savePath ++ ", 已存在, 跳过..."]⟩
      else
        match rpc with
        | none =>
            -- 秒传成功
            ⟨false, ⟨true, false, "", none⟩, db, true,
              printed0 ++ ["秒传成功, 保存到网盘路径: " ++ savePath]⟩
        | some pe =>
            if pe.errType = .remoteError ∧ pe.remoteErrCode = 31112 then
              -- exceed quota: 秒传失败, 超出配额
              ⟨false, ⟨false, false, "秒传失败, 超出配额, 网盘容量已满", none⟩,
                db, true, printed0⟩
            else
              -- 其他拒绝: 保存秒传信息占位, 继续上传
              ⟨true, zeroResult, dbSave (dbUpdate db ident none), true,
                printed0 ++ ["秒传失败, 开始上传文件..."]⟩

/-- `UploadTaskUnit.rapidUpload`, from the listing outcome onward. A listing
failure with a remote code other than 31066 is a terminal failure; a listing
failure of any other error type is a retryable failure; remote code 31066
(directory absent) continues with an empty listing. -/
def rapidUpload (savePath panFile : String) (length : Nat) (ident : Identity)
    (db : UploadingDatabase) (listing : Except PcsError (List RemoteFile))
    (sumResult : Except String (List Nat)) (rpc : Option PcsError) : RapidOut :=
  match listing with
  | .error pe =>
      match pe.errType with
      | .remoteError =>
          if pe.remoteErrCode = 31066 then
            -- file does not exist: 不缓存文件夹, 继续
            rapidUploadAfterList savePath panFile length ident db none sumResult rpc
          else
            -- 其他百度服务器错误, 不重试
            ⟨false, ⟨false, false, "获取文件列表错误", some (.pcs pe)⟩, db, false, []⟩
      | _ =>
          -- 未知错误, 重试
          ⟨false, ⟨false, true, "获取文件列表错误", some (.pcs pe)⟩, db, false, []⟩
  | .ok fdl =>
      rapidUploadAfterList savePath panFile length ident db (some fdl) sumResult rpc

/-! ## Upload stage: `OnSuccess` and `OnUploadStatusEvent` callbacks
(`upload_task_unit.go:224-249`) -/

/-- The `OnSuccess` callback of `UploadTaskUnit.upload`: print the success
message, delete the checkpoint for the file identity, save the store, and set
`Succeed` on the (zero-initialised) run result. Returns the result, the store
state after the callback, and the printed lines. -/
def uploadOnSuccess (db : UploadingDatabase) (ident : Identity)
    (savePath : String) : TaskUnitRunResult × UploadingDatabase × List String :=
  (⟨true, false, "", none⟩, dbSave (dbDelete db ident),
    ["上传文件成功, 保存到网盘路径: " ++ savePath])

/-- A transfer status snapshot (`uploader.Status`): uploaded bytes, total
bytes, speed per second, and the formatted elapsed time. -/
structure UploadStatus where
  uploaded : Nat
  totalSize : Nat
  speeds : Nat
  timeElapsed : String
  deriving DecidableEq, Repr

/-- `fmt.Sprintf` restricted to `%s` placeholders, which is all the upload
progress format uses: each `%s` consumes the next argument. -/
def sprintfAux : List Char → List String → List Char
  | '%' :: 's' :: rest, a :: args => a.data ++ sprintfAux rest args
  | c :: rest, args => c :: sprintfAux rest args
  | [], _ => []

/-- `fmt.Sprintf` over `%s` placeholders. -/
def sprintf (fmt : String) (args : List String) : String :=
  ⟨sprintfAux fmt.data args⟩

/-- The `OnUploadStatusEvent` callback of `UploadTaskUnit.upload`: a
non-blocking receive on the update channel (`signalReady` is whether the
"update available" signal is ready at this moment) guards the checkpoint
persist, and the formatted progress line is always emitted. `convSize` models
`converter.ConvertFileSize` with precision 2. Returns the store state after
the callback and the printed lines. -/
def onUploadStatusEvent (signalReady : Bool) (db : UploadingDatabase)
    (ident : Identity) (instState : Nat) (printFormat : String)
    (convSize : Nat → String) (st : UploadStatus) :
    UploadingDatabase × List String :=
  let db' := if signalReady then dbSave (dbUpdate db ident (some instState)) else db
  (db', [sprintf printFormat
    [convSize st.uploaded, convSize st.totalSize, convSize st.speeds,
      st.timeElapsed]])

/-- The dispatch at the end of `UploadTaskUnit.Run`: after `prepareFile`, the
`switch` jumps to the rapid-upload label or the upload label; a rapid-upload
stage that does not continue returns its own result, otherwise the run falls
into the upload stage. Returns the run result and whether the block-transfer
upload stage was entered. -/
def runDispatch (step : StepUpload) (rapidOut : RapidOut)
    (uploadResult : TaskUnitRunResult) : TaskUnitRunResult × Bool :=
  match step with
  | .uploadStep => (uploadResult, true)
  | _ => if rapidOut.isContinue then (uploadResult, true) else (rapidOut.result, false)

/-! ## Concurrent terminal renderer (`TaskPrinter`, second version)

The single-consumer event loop is embedded as the pure transition `update`
on the renderer state and the pure redraw `render`, which returns the frame
written to the terminal (the cursor-up amount and the printed lines, each
line carrying its trailing-space padding) together with the state after the
redraw. The display-width measurement `runewidth.StringWidth` is an external
collaborator, passed in as a function. -/

/-- `taskframework.TaskInfo` as the renderer reads it: the task id and the
retry counters for display. -/
structure TaskInfo where
  id : String
  retry : Nat
  maxRetry : Nat
  deriving DecidableEq, Repr

/-- The status constants `TaskWait`, `TaskRun`, `TaskDone`, `TaskFail`. -/
def TaskWait : Nat := 0

/-- `TaskRun`. -/
def TaskRun : Nat := 1

/-- `TaskDone`. -/
def TaskDone : Nat := 2

/-- `TaskFail`. -/
def TaskFail : Nat := 3

/-- One render slot (`taskState`): the task info, its status, and its last
single-line message. -/
structure TaskState where
  info : TaskInfo
  stat : Nat
  msg : String
  deriving DecidableEq, Repr

/-- Spinner animation state: the frame set and the tick counter. -/
structure Spinner where
  frames : List String
  frame : Nat
  deriving DecidableEq, Repr

/-- `Spinner.String`: the frame at index `frame mod len(frames)` (the source
indexes the non-empty `Dot` frame set; `getD` makes the embedding total). -/
def Spinner.render (s : Spinner) : String :=
  s.frames.getD (s.frame % s.frames.length) ""

/-- The renderer state (second `TaskPrinter` version): spinner, the id →
row-index mapping, the row slots, the pending multi-line (scroll-back)
message, the previous frame's per-row width mask (`none` before the first
redraw, as Go's nil slice), and the quit flag. -/
structure TaskPrinter where
  spinner : Spinner
  idMap : List (String × Nat)
  tasks : List TaskState
  multiLineMsg : String
  mask : Option (List Nat)
  quit : Bool
  deriving DecidableEq, Repr

/-- Go map lookup on the id → row-index mapping (each id is written once at
registration, so first-match lookup agrees with the map). -/
def idMapLookup : List (String × Nat) → String → Option Nat
  | [], _ => none
  | (k, v) :: rest, id => if k = id then some v else idMapLookup rest id

/-- `SetTaskInfo`: bind a new task id to the next row. -/
def setTaskInfo (p : TaskPrinter) (info : TaskInfo) : TaskPrinter :=
  { p with idMap := p.idMap ++ [(info.id, p.tasks.length)],
           tasks := p.tasks ++ [⟨info, TaskWait, "初始化..."⟩] }

/-- The four event kinds read from the update channel. -/
inductive PrinterMsg where
  | quitMsg
  | spinnerMsg
  | statMsg (id : String) (stat : Nat)
  | taskMsg (id : String) (msg : String)
  deriving DecidableEq, Repr

/-- In-place update of one row slot (Go mutates `p.tasks[i]` through the
pointer); out-of-range indices leave the list unchanged. -/
def listModify : List TaskState → Nat → (TaskState → TaskState) → List TaskState
  | [], _, _ => []
  | a :: t, 0, f => f a :: t
  | a :: t, n + 1, f => a :: listModify t n f

/-- `TaskPrinter.Update` (second version): quit sets the flag, a spinner tick
advances the frame, a status change updates the row found for the id (if
any), and a message either becomes the pending scroll-back block (when it
contains a line break) or replaces the row's message (when the id is
registered). -/
def update (p : TaskPrinter) (m : PrinterMsg) : TaskPrinter :=
  match m with
  | .quitMsg => { p with quit := true }
  | .spinnerMsg =>
      { p with spinner := { p.spinner with frame := p.spinner.frame + 1 } }
  | .statMsg id stat =>
      match idMapLookup p.idMap id with
      | some i =>
          { p with tasks := listModify p.tasks i (fun t => { t with stat := stat }) }
      | none => p
  | .taskMsg id msg =>
      if strContains msg "\n" then
        -- 多行输出，单独处理
        { p with multiLineMsg := "[" ++ id ++ "] " ++ msg }
      else
        match idMapLookup p.idMap id with
        | some i =>
            { p with tasks := listModify p.tasks i (fun t => { t with msg := msg }) }
        | none => p

/-- The status glyph of a row. -/
def statGlyph (spinner : Spinner) (stat : Nat) : String :=
  if stat = TaskWait then "-"
  else if stat = TaskRun then spinner.render
  else if stat = TaskDone then "√"
  else if stat = TaskFail then "X"
  else " "

/-- One table row: glyph, bracketed id, last message if any, and the retry
counter suffix if the retry count is positive. -/
def renderRow (spinner : Spinner) (t : TaskState) : String :=
  let s1 := statGlyph spinner t.stat ++ " [" ++ t.info.id ++ "]"
  let s2 := if ¬ t.msg = "" then s1 ++ " " ++ t.msg else s1
  if t.info.retry > 0 then
    s2 ++ " (重试: " ++ toString t.info.retry ++ "/" ++ toString t.info.maxRetry
      ++ ")"
  else s2

/-- `strings.Split` on newlines, by recursion on the characters: the segments
between newline characters, in order (an empty string yields one empty
segment). -/
def splitNewlineAux : List Char → List Char → List String
  | [], acc => [String.mk acc.reverse]
  | c :: rest, acc =>
      if c = '\n' then String.mk acc.reverse :: splitNewlineAux rest []
      else splitNewlineAux rest (c :: acc)

/-- `strings.Split s "\n"`. -/
def splitNewline (s : String) : List String :=
  splitNewlineAux s.data []

/-- The line set of one frame: the optional scroll-back block, the separator,
then one row per registered task in registration order. -/
def renderStrs (p : TaskPrinter) : List String :=
  (if ¬ p.multiLineMsg = "" then splitNewline p.multiLineMsg else [])
    ++ ["--------"] ++ p.tasks.map (renderRow p.spinner)

/-- The frame written to the terminal by one redraw: the cursor-up amount of
the leading `ESC[nA` sequence (`none` on the first redraw) and the printed
lines, each with its trailing-space padding. -/
structure RenderOutput where
  cursorUp : Option Nat
  lines : List String
  deriving DecidableEq, Repr

/-- One printed line: the row text, padded with
`mask[i] + 4 - width` trailing spaces when `i` indexes the previous mask and
the new width is below the previous width plus the fixed margin 4. -/
def renderLine (width : String → Nat) (mask : List Nat) (i : Nat) (s : String) :
    String :=
  if i < mask.length ∧ width s < mask.getD i 0 + 4 then
    s ++ String.mk (List.replicate ((mask.getD i 0 + 4) - width s) ' ')
  else s

/-- The printed lines of a frame, indexed from `i`. -/
def renderLines (width : String → Nat) (mask : List Nat) (i : Nat) :
    List String → List String
  | [] => []
  | s :: rest => renderLine width mask i s :: renderLines width mask (i + 1) rest

/-- `TaskPrinter.Render` (second version): build the line set (consuming the
scroll-back block), move the cursor up by `len(tasks) + 1` when this is not
the first redraw, print each line with its erasure padding, and record the
new width mask. -/
def render (width : String → Nat) (p : TaskPrinter) :
    RenderOutput × TaskPrinter :=
  let strs := renderStrs p
  let up : Option Nat :=
    match p.mask with
    | some _ => some (p.tasks.length + 1)
    | none => none
  let lines := renderLines width (p.mask.getD []) 0 strs
  (⟨up, lines⟩, { p with multiLineMsg := "", mask := some (strs.map width) })

/-! ## Theorems -/

/-- **C1.** Every failure of the chunked Upload stage is classified before the
run result is returned: the stale-session code 31363 deletes the resume
checkpoint (and saves the store) and sets `needRetry`; the duplicate-name code
31061 is terminal with no retry; every other remote-server error retries; a net
error whose message contains `413 Request Entity Too Large` is terminal with no
retry; every other net error retries; and an error that is not a classified
protocol error (a failed type assertion, or a `pcserror.Error` of an
unclassified type) is terminal with no retry. No branch reports success. -/
theorem uploadOnError_classification (db : UploadingDatabase) (ident : Identity)
    (code : Nat) (m netMsg bigMsg : String)
    (hc1 : code ≠ 31363) (hc2 : code ≠ 31061)
    (hnet : strContains netMsg oversizedIndication = false)
    (hbig : strContains bigMsg oversizedIndication = true) :
    (uploadOnError db ident (.pcs ⟨.remoteError, 31363, m⟩)).1.needRetry = true
    ∧ (uploadOnError db ident (.pcs ⟨.remoteError, 31363, m⟩)).2
        = dbSave (dbDelete db ident)
    ∧ (uploadOnError db ident (.pcs ⟨.remoteError, 31061, m⟩)).1.needRetry = false
    ∧ (uploadOnError db ident (.pcs ⟨.remoteError, code, m⟩)).1.needRetry = true
    ∧ (uploadOnError db ident (.pcs ⟨.netError, code, bigMsg⟩)).1.needRetry = false
    ∧ (uploadOnError db ident (.pcs ⟨.netError, code, netMsg⟩)).1.needRetry = true
    ∧ (uploadOnError db ident (.pcs ⟨.otherType, code, m⟩)).1.needRetry = false
    ∧ (uploadOnError db ident (.unknown m)).1.needRetry = false
    ∧ (∀ e : UploadErr, (uploadOnError db ident e).1.succeed = false) := by
  refine ⟨rfl, rfl, ?_, ?_, ?_, ?_, rfl, rfl, ?_⟩
  · simp [uploadOnError]
  · simp [uploadOnError, hc1, hc2]
  · simp [uploadOnError, hbig]
  · simp [uploadOnError, hnet]
  · intro e
    rcases e with ⟨ty, c, s⟩ | m'
    · cases ty <;> simp only [uploadOnError] <;> split_ifs <;> rfl
    · rfl

/-- The existence of a matching listing entry makes the dedup scan succeed. -/
theorem dedupHit_of_exists (fdl : List RemoteFile) (panFile : String)
    (md5 : List Nat)
    (h : ∃ fd ∈ fdl, fd.filename = panFile ∧ hexDecode fd.md5 = md5) :
    dedupHit fdl panFile md5 = true := by
  obtain ⟨fd, hmem, h1, h2⟩ := h
  simp only [dedupHit, List.any_eq_true]
  exact ⟨fd, hmem, by simp [h1, h2]⟩

/-- **C2.** If the remote parent-directory listing contains an entry whose
leaf name equals the target leaf name and whose reported MD5 decodes to the
locally computed MD5 bytes, the rapid-upload stage returns terminal success
(`succeed = true`, no retry), does not invoke the rapid-upload-by-hash RPC,
and `Run`'s dispatch returns that result without entering the block-transfer
upload stage. -/
theorem rapidUpload_dedup_short_circuit (savePath panFile : String)
    (length : Nat) (ident : Identity) (db : UploadingDatabase)
    (fdl : List RemoteFile) (md5 : List Nat) (rpc : Option PcsError)
    (u : TaskUnitRunResult)
    (h : ∃ fd ∈ fdl, fd.filename = panFile ∧ hexDecode fd.md5 = md5) :
    (rapidUpload savePath panFile length ident db (.ok fdl) (.ok md5)
        rpc).result.succeed = true
    ∧ (rapidUpload savePath panFile length ident db (.ok fdl) (.ok md5)
        rpc).result.needRetry = false
    ∧ (rapidUpload savePath panFile length ident db (.ok fdl) (.ok md5)
        rpc).rpcCalled = false
    ∧ (rapidUpload savePath panFile length ident db (.ok fdl) (.ok md5)
        rpc).isContinue = false
    ∧ runDispatch .rapidUploadStep
        (rapidUpload savePath panFile length ident db (.ok fdl) (.ok md5) rpc) u
      = ((rapidUpload savePath panFile length ident db (.ok fdl) (.ok md5)
          rpc).result, false) := by
  have hd := dedupHit_of_exists fdl panFile md5 h
  simp [rapidUpload, rapidUploadAfterList, runDispatch, hd]

/-- Witness for C2 at a concrete listing and hash. -/
theorem rapidUpload_dedup_short_circuit_witness :
    (rapidUpload "/a/b.txt" "b.txt" 5 "id" ⟨[], []⟩
        (.ok [⟨"b.txt", "00ff"⟩]) (.ok [0, 255]) none).result.succeed = true :=
  (rapidUpload_dedup_short_circuit "/a/b.txt" "b.txt" 5 "id" ⟨[], []⟩
    [⟨"b.txt", "00ff"⟩] [0, 255] none zeroResult
    ⟨⟨"b.txt", "00ff"⟩, by decide, by decide, by decide⟩).1

/-- **C3.** If the rapid-upload-by-hash RPC fails with the remote exceed-quota
code 31112 (on either path to the RPC: a successful listing with no dedup hit,
or the definitive directory-absent listing code 31066), the stage's result is
a terminal failure (`succeed = false`, `needRetry = false`), `isContinue` is
false, and `Run`'s dispatch returns that result without entering the
block-transfer upload stage. -/
theorem rapidUpload_quota_terminal (savePath panFile : String) (length : Nat)
    (ident : Identity) (db : UploadingDatabase) (fdl : List RemoteFile)
    (md5 : List Nat) (rpcMsg lm : String) (u : TaskUnitRunResult)
    (hmiss : dedupHit fdl panFile md5 = false) :
    (rapidUpload savePath panFile length ident db (.ok fdl) (.ok md5)
        (some ⟨.remoteError, 31112, rpcMsg⟩)).result.succeed = false
    ∧ (rapidUpload savePath panFile length ident db (.ok fdl) (.ok md5)
        (some ⟨.remoteError, 31112, rpcMsg⟩)).result.needRetry = false
    ∧ (rapidUpload savePath panFile length ident db (.ok fdl) (.ok md5)
        (some ⟨.remoteError, 31112, rpcMsg⟩)).rpcCalled = true
    ∧ (rapidUpload savePath panFile length ident db (.ok fdl) (.ok md5)
        (some ⟨.remoteError, 31112, rpcMsg⟩)).isContinue = false
    ∧ runDispatch .rapidUploadStep
        (rapidUpload savePath panFile length ident db (.ok fdl) (.ok md5)
          (some ⟨.remoteError, 31112, rpcMsg⟩)) u
      = ((rapidUpload savePath panFile length ident db (.ok fdl) (.ok md5)
          (some ⟨.remoteError, 31112, rpcMsg⟩)).result, false)
    ∧ (rapidUpload savePath panFile length ident db
        (.error ⟨.remoteError, 31066, lm⟩) (.ok md5)
        (some ⟨.remoteError, 31112, rpcMsg⟩)).result.succeed = false
    ∧ (rapidUpload savePath panFile length ident db
        (.error ⟨.remoteError, 31066, lm⟩) (.ok md5)
        (some ⟨.remoteError, 31112, rpcMsg⟩)).result.needRetry = false
    ∧ (rapidUpload savePath panFile length ident db
        (.error ⟨.remoteError, 31066, lm⟩) (.ok md5)
        (some ⟨.remoteError, 31112, rpcMsg⟩)).isContinue = false := by
  simp [rapidUpload, rapidUploadAfterList, runDispatch, hmiss]

/-- Witness for C3 at a concrete run. -/
theorem rapidUpload_quota_terminal_witness :
    (rapidUpload "/a/b.txt" "b.txt" 5 "id" ⟨[], []⟩ (.ok [])
        (.ok [0, 255]) (some ⟨.remoteError, 31112, "quota"⟩)).result.needRetry
      = false :=
  (rapidUpload_quota_terminal "/a/b.txt" "b.txt" 5 "id" ⟨[], []⟩ [] [0, 255]
    "quota" "lm" zeroResult (by decide)).2.1

/-- **C7.** If the rapid-upload-by-hash RPC is rejected with any error other
than the remote exceed-quota code (on either path to the RPC), the stage
prints the fall-through message, upserts a placeholder checkpoint (the
identity with no resume state) and saves the store, sets `isContinue`, and
`Run`'s dispatch continues into the block-transfer upload stage. -/
theorem rapidUpload_other_rejection_continues (savePath panFile : String)
    (length : Nat) (ident : Identity) (db : UploadingDatabase)
    (fdl : List RemoteFile) (md5 : List Nat) (pe : PcsError) (lm : String)
    (u : TaskUnitRunResult)
    (hmiss : dedupHit fdl panFile md5 = false)
    (hnq : ¬(pe.errType = .remoteError ∧ pe.remoteErrCode = 31112)) :
    (rapidUpload savePath panFile length ident db (.ok fdl) (.ok md5)
        (some pe)).isContinue = true
    ∧ (rapidUpload savePath panFile length ident db (.ok fdl) (.ok md5)
        (some pe)).db = dbSave (dbUpdate db ident none)
    ∧ "秒传失败, 开始上传文件..." ∈
        (rapidUpload savePath panFile length ident db (.ok fdl) (.ok md5)
          (some pe)).printed
    ∧ runDispatch .rapidUploadStep
        (rapidUpload savePath panFile length ident db (.ok fdl) (.ok md5)
          (some pe)) u
      = (u, true)
    ∧ (rapidUpload savePath panFile length ident db
        (.error ⟨.remoteError, 31066, lm⟩) (.ok md5) (some pe)).isContinue = true
    ∧ (rapidUpload savePath panFile length ident db
        (.error ⟨.remoteError, 31066, lm⟩) (.ok md5) (some pe)).db
      = dbSave (dbUpdate db ident none) := by
  simp [rapidUpload, rapidUploadAfterList, runDispatch, hmiss, hnq]

/-- Witness for C7 at a concrete run (a net-type RPC rejection). -/
theorem rapidUpload_other_rejection_continues_witness :
    (rapidUpload "/a/b.txt" "b.txt" 5 "id" ⟨[], []⟩ (.ok [])
        (.ok [0, 255]) (some ⟨.netError, 0, "timeout"⟩)).isContinue = true :=
  (rapidUpload_other_rejection_continues "/a/b.txt" "b.txt" 5 "id" ⟨[], []⟩
    [] [0, 255] ⟨.netError, 0, "timeout"⟩ "lm" zeroResult (by decide)
    (by decide)).1

/-- **C4.** The Prepare stage continues with the Upload step exactly when a
resume checkpoint was found, or the full MD5 is already cached, or rapid
upload is administratively disabled, or the file length exceeds the 20 GiB
ceiling; otherwise it continues with the Rapid-Upload step. -/
theorem prepareFile_next_step (state : Option Nat)
    (cachedMD5 : Option (List Nat)) (noRapidUpload : Bool) (length : Nat) :
    (prepareFile state cachedMD5 noRapidUpload length = .uploadStep ↔
      (state.isSome = true ∨ cachedMD5.isSome = true ∨ noRapidUpload = true
        ∨ length > MaxRapidUploadSize))
    ∧ (prepareFile state cachedMD5 noRapidUpload length = .rapidUploadStep ↔
      ¬(state.isSome = true ∨ cachedMD5.isSome = true ∨ noRapidUpload = true
        ∨ length > MaxRapidUploadSize)) := by
  unfold prepareFile
  rcases state with _ | s <;> rcases cachedMD5 with _ | c <;>
    cases noRapidUpload <;> by_cases hl : length > MaxRapidUploadSize <;>
    simp_all

/-- Deleting an identity removes every in-memory entry with that key. -/
theorem dbHasMem_dbDelete (db : UploadingDatabase) (k : Identity) :
    dbHasMem (dbDelete db k) k = false := by
  simp only [dbHasMem, dbDelete]
  induction db.mem with
  | nil => rfl
  | cons a t ih =>
      by_cases h : a.1 = k <;> simp [List.filter, h, ih]

/-- **C5.** The `OnSuccess` callback of the Upload stage deletes the resume
checkpoint for the file identity and persists the store before the run result
reports terminal success: after it, the result has `succeed = true` and
neither the in-memory nor the persisted store holds a checkpoint for that
identity. -/
theorem uploadOnSuccess_checkpoint_deleted (db : UploadingDatabase)
    (ident : Identity) (savePath : String) :
    (uploadOnSuccess db ident savePath).1.succeed = true
    ∧ (uploadOnSuccess db ident savePath).1.needRetry = false
    ∧ dbHasMem (uploadOnSuccess db ident savePath).2.1 ident = false
    ∧ dbHasDisk (uploadOnSuccess db ident savePath).2.1 ident = false
    ∧ (uploadOnSuccess db ident savePath).2.1.disk
      = (uploadOnSuccess db ident savePath).2.1.mem := by
  have h := dbHasMem_dbDelete db ident
  refine ⟨rfl, rfl, ?_, ?_, rfl⟩
  · simpa [uploadOnSuccess, dbSave, dbHasMem] using h
  · simpa [uploadOnSuccess, dbSave, dbHasDisk, dbHasMem] using h

/-- **C6.** The `OnUploadStatusEvent` callback persists the checkpoint if and
only if the "update available" signal is ready at that moment (the receive
never blocks: with the signal not ready the store is left untouched), and it
always emits exactly one progress line, formatted from the print format with
the uploaded size, total size, speed and elapsed time; with the default
format that line is `↑ uploaded/total speed/s in elapsed ............`. -/
theorem onUploadStatusEvent_persist_and_line (signalReady : Bool)
    (db : UploadingDatabase) (ident : Identity) (instState : Nat)
    (printFormat : String) (convSize : Nat → String) (st : UploadStatus)
    (a b c d : String) :
    (signalReady = true →
      (onUploadStatusEvent signalReady db ident instState printFormat convSize
        st).1 = dbSave (dbUpdate db ident (some instState)))
    ∧ (signalReady = false →
      (onUploadStatusEvent signalReady db ident instState printFormat convSize
        st).1 = db)
    ∧ (onUploadStatusEvent signalReady db ident instState printFormat convSize
        st).2
      = [sprintf printFormat
          [convSize st.uploaded, convSize st.totalSize, convSize st.speeds,
            st.timeElapsed]]
    ∧ (onUploadStatusEvent signalReady db ident instState printFormat convSize
        st).2.length = 1
    ∧ sprintf DefaultPrintFormat [a, b, c, d]
      = "↑ " ++ (a ++ ("/" ++ (b ++ (" " ++ (c ++ ("/s in " ++ (d ++ " ............"))))))) := by
  refine ⟨?_, ?_, rfl, rfl, ?_⟩
  · intro h
    simp [onUploadStatusEvent, h]
  · intro h
    simp [onUploadStatusEvent, h]
  · rfl

/-- Witness for C6 at concrete inputs. -/
theorem onUploadStatusEvent_persist_and_line_witness :
    (onUploadStatusEvent true ⟨[], []⟩ "f" 9 DefaultPrintFormat
        (fun n => toString n) ⟨5, 10, 1, "5s"⟩).1
      = dbSave (dbUpdate ⟨[], []⟩ "f" (some 9))
    ∧ (onUploadStatusEvent false ⟨[], []⟩ "f" 9 DefaultPrintFormat
        (fun n => toString n) ⟨5, 10, 1, "5s"⟩).1 = ⟨[], []⟩ := by
  have h1 := onUploadStatusEvent_persist_and_line true ⟨[], []⟩ "f" 9
    DefaultPrintFormat (fun n => toString n) ⟨5, 10, 1, "5s"⟩ "a" "b" "c" "d"
  have h2 := onUploadStatusEvent_persist_and_line false ⟨[], []⟩ "f" 9
    DefaultPrintFormat (fun n => toString n) ⟨5, 10, 1, "5s"⟩ "a" "b" "c" "d"
  exact ⟨h1.1 rfl, h2.2.1 rfl⟩

/-- `renderLines` prints one line per row text. -/
theorem renderLines_length (width : String → Nat) (mask : List Nat) (i : Nat)
    (ss : List String) : (renderLines width mask i ss).length = ss.length := by
  induction ss generalizing i with
  | nil => rfl
  | cons a t ih => simp [renderLines, ih]

/-- The `i`-th printed line of a frame indexed from `j` is the `i`-th row text
processed at mask position `j + i`. -/
theorem renderLines_getD (width : String → Nat) (mask : List Nat) (j i : Nat)
    (ss : List String) (h : i < ss.length) :
    (renderLines width mask j ss).getD i ""
      = renderLine width mask (j + i) (ss.getD i "") := by
  induction ss generalizing j i with
  | nil => simp at h
  | cons a t ih =>
      cases i with
      | zero => simp [renderLines]
      | succ n =>
          have h' : n < t.length := by simpa using h
          simp only [renderLines, List.getD_cons_succ]
          rw [ih (j + 1) n h']
          congr 1
          omega

/-- A concrete width function for witnesses: the character count. -/
def exampleWidth : String → Nat := fun s => s.length

/-- A renderer state past its first redraw (its mask is present), holding one
registered task and a pending two-line scroll-back message. -/
def examplePrinter : TaskPrinter :=
  ⟨⟨["*"], 0⟩, [("t", 0)], [⟨⟨"t", 0, 0⟩, TaskWait, "m"⟩], "a\nb",
    some [0, 0], false⟩

/-- **C8, counterexample.** The claim says each redraw after the first moves
the cursor up by the number of lines actually printed in the previous frame,
including scroll-back lines. At a state whose pending scroll-back message
spans two lines, the frame prints four lines (two scroll-back lines, the
separator, one task row), yet the next redraw moves the cursor up by only
two: the code always moves up by `len(tasks) + 1`, leaving scroll-back lines
in place above the table. -/
theorem render_cursorUp_counterexample :
    (render exampleWidth examplePrinter).1.lines.length = 4
    ∧ (render exampleWidth
        ((render exampleWidth examplePrinter).2)).1.cursorUp ≠
      some ((render exampleWidth examplePrinter).1.lines.length)
    ∧ (render exampleWidth
        ((render exampleWidth examplePrinter).2)).1.cursorUp = some 2 := by
  refine ⟨by decide, by decide, by decide⟩

/-- **C8, amended.** On every redraw after the first (the width mask is
present), the renderer moves the cursor up by the number of registered tasks
plus one — the height of the separator plus the fixed table. This equals the
previous redraw's printed line count exactly when the previous frame
contained no scroll-back block: a frame built from a state with no pending
multi-line message prints `len(tasks) + 1` lines, and a redraw leaves the
task rows in place and clears the pending message. Scroll-back lines of the
previous frame are not counted: they are left above the redrawn table. -/
theorem render_cursorUp_amended (width : String → Nat) (p : TaskPrinter)
    (hmask : p.mask ≠ none) :
    (render width p).1.cursorUp = some (p.tasks.length + 1)
    ∧ (p.multiLineMsg = "" →
        (render width p).1.lines.length = p.tasks.length + 1)
    ∧ (render width p).2.tasks = p.tasks
    ∧ (render width p).2.multiLineMsg = "" := by
  rcases hp : p.mask with _ | m
  · exact absurd hp hmask
  · refine ⟨by simp [render, hp], ?_, rfl, rfl⟩
    intro h0
    simp [render, renderLines_length, renderStrs, h0, Nat.add_comm]

/-- Witness for the amended C8 at a concrete state with no pending
scroll-back message. -/
theorem render_cursorUp_amended_witness :
    (render exampleWidth ⟨⟨["*"], 0⟩, [("t", 0)],
        [⟨⟨"t", 0, 0⟩, TaskWait, "m"⟩], "", some [3], false⟩).1.cursorUp
      = some 2
    ∧ (render exampleWidth ⟨⟨["*"], 0⟩, [("t", 0)],
        [⟨⟨"t", 0, 0⟩, TaskWait, "m"⟩], "", some [3], false⟩).1.lines.length
      = 2 := by
  have h := render_cursorUp_amended exampleWidth
    ⟨⟨["*"], 0⟩, [("t", 0)], [⟨⟨"t", 0, 0⟩, TaskWait, "m"⟩], "", some [3],
      false⟩ (by decide)
  exact ⟨h.1, h.2.1 rfl⟩

/-- **C9.** On a redraw after the first, for each row index whose previous
rendered width is `W` and whose new row text has width `W' < W`, the emitted
line is the new text followed by exactly `(W + 4) − W'` trailing spaces —
that is, `W − W'` spaces plus the fixed safety margin 4 — before the
terminating newline. -/
theorem render_trailing_erasure (width : String → Nat) (p : TaskPrinter)
    (m : List Nat) (i : Nat) (hm : p.mask = some m) (him : i < m.length)
    (his : i < (renderStrs p).length)
    (hW : width ((renderStrs p).getD i "") < m.getD i 0) :
    (render width p).1.lines.getD i ""
      = (renderStrs p).getD i ""
        ++ String.mk (List.replicate
            ((m.getD i 0 + 4) - width ((renderStrs p).getD i "")) ' ')
    ∧ (m.getD i 0 + 4) - width ((renderStrs p).getD i "")
      = (m.getD i 0 - width ((renderStrs p).getD i "")) + 4 := by
  have hg := renderLines_getD width m 0 i (renderStrs p) his
  have hcond : width ((renderStrs p).getD i "") < m.getD i 0 + 4 := by omega
  refine ⟨?_, by omega⟩
  show (renderLines width (p.mask.getD []) 0 (renderStrs p)).getD i "" = _
  rw [hm, Option.getD_some, hg, Nat.zero_add, renderLine,
    if_pos ⟨him, hcond⟩]

/-- A renderer state for the C9 witness: no tasks, previous row width 10. -/
def erasurePrinter : TaskPrinter :=
  ⟨⟨["*"], 0⟩, [], [], "", some [10], false⟩

/-- Witness for C9: the separator row (width 8) over a previous width of 10
is padded with `10 + 4 − 8 = 6` trailing spaces. -/
theorem render_trailing_erasure_witness :
    (render exampleWidth erasurePrinter).1.lines.getD 0 ""
      = (renderStrs erasurePrinter).getD 0 ""
        ++ String.mk (List.replicate
            (([10].getD 0 0 + 4)
              - exampleWidth ((renderStrs erasurePrinter).getD 0 "")) ' ') :=
  (render_trailing_erasure exampleWidth erasurePrinter [10] 0 rfl (by decide)
    (by decide) (by decide)).1

/-- **C10.** A status-change event or a single-line message event whose task
id was never registered leaves the renderer state unchanged: no row is
created or modified and the id-to-row mapping is untouched. -/
theorem update_unregistered_noop (p : TaskPrinter) (id : String) (stat : Nat)
    (msg : String) (hid : idMapLookup p.idMap id = none)
    (hnl : strContains msg "\n" = false) :
    update p (.statMsg id stat) = p ∧ update p (.taskMsg id msg) = p := by
  constructor
  · simp [update, hid]
  · simp [update, hnl, hid]

/-- Witness for C10 at a concrete state and an unregistered id. -/
theorem update_unregistered_noop_witness :
    update ⟨⟨["*"], 0⟩, [("a", 0)], [⟨⟨"a", 0, 0⟩, TaskWait, ""⟩], "", none,
        false⟩ (.statMsg "b" 2)
      = ⟨⟨["*"], 0⟩, [("a", 0)], [⟨⟨"a", 0, 0⟩, TaskWait, ""⟩], "", none,
        false⟩
    ∧ update ⟨⟨["*"], 0⟩, [("a", 0)], [⟨⟨"a", 0, 0⟩, TaskWait, ""⟩], "", none,
        false⟩ (.taskMsg "b" "hello")
      = ⟨⟨["*"], 0⟩, [("a", 0)], [⟨⟨"a", 0, 0⟩, TaskWait, ""⟩], "", none,
        false⟩ :=
  update_unregistered_noop
    ⟨⟨["*"], 0⟩, [("a", 0)], [⟨⟨"a", 0, 0⟩, TaskWait, ""⟩], "", none, false⟩
    "b" 2 "hello" (by decide) (by decide)

/-- Witness for C1 at concrete inputs. -/
theorem uploadOnError_classification_witness :
    (uploadOnError ⟨[("f", some 7)], []⟩ "f"
        (.pcs ⟨.remoteError, 31363, "x"⟩)).2 = dbSave (dbDelete ⟨[("f", some 7)], []⟩ "f")
    ∧ (uploadOnError ⟨[("f", some 7)], []⟩ "f"
        (.pcs ⟨.netError, 1, "a 413 Request Entity Too Large b"⟩)).1.needRetry = false := by
  have h := uploadOnError_classification ⟨[("f", some 7)], []⟩ "f" 1 "x" "timeout"
    "a 413 Request Entity Too Large b" (by decide) (by decide) (by decide) (by decide)
  exact ⟨h.2.1, h.2.2.2.2.1⟩

end BaiduPCS
